import Mathlib

/-!
Verification of `plug-blockchain` primitives against their specification.

The definitions below are a shallow embedding of three source files:
* `primitives/runtime-interface/src/wasm.rs` — the `WrappedFFIValue`
  carrier, the `FromFFIValue`/`IntoFFIValue` conversion traits, the
  `ExchangeableFunction` cell and its `RestoreImplementation` drop guard;
* `primitives/network-privacy/src/lib.rs` — the `NetworkPrivacyApi`
  signatures;
* `primitives/runtime/src/testing.rs` — `UintAuthorityId::sign/verify`
  and the `TestXt` `Checkable`/`Applyable` implementations.

Interior mutability of the Rust `Cell` is embedded as explicit state
passing: every operation takes the cell value and returns the updated
cell value.  A Rust panic is embedded as a dedicated result constructor
carrying the cell exactly as it stands at the panic point (in the source
every panic happens before any mutation of the cell, so the carried cell
is the entry cell).
-/

namespace PlugBlockchain

/-! ## `WrappedFFIValue` (wasm.rs lines 53-77) -/

/-- `enum WrappedFFIValue<T, O> { Wrapped(T), WrappedAndOwned(T, O) }`. -/
inductive WrappedFFIValue (T : Type) (O : Type) where
  | Wrapped (data : T)
  | WrappedAndOwned (data : T) (owned : O)
deriving DecidableEq, Repr

/-- `WrappedFFIValue::get`: returns the wrapped ffi value (a copy of the
`T` component in both variants; the owned companion is ignored). -/
def WrappedFFIValue.get {T O : Type} : WrappedFFIValue T O → T
  | .Wrapped data => data
  | .WrappedAndOwned data _ => data

/-- `impl From<T> for WrappedFFIValue<T, O>`. -/
def WrappedFFIValue.fromValue {T O : Type} (val : T) : WrappedFFIValue T O :=
  WrappedFFIValue.Wrapped val

/-- `impl From<(T, O)> for WrappedFFIValue<T, O>`. -/
def WrappedFFIValue.fromPair {T O : Type} (val : T × O) : WrappedFFIValue T O :=
  WrappedFFIValue.WrappedAndOwned val.1 val.2

/-! ## `ExchangeableFunction` (wasm.rs lines 79-143) -/

/-- `enum ExchangeableFunctionState { Original, Replaced }`. -/
inductive ExchangeableFunctionState where
  | Original
  | Replaced
deriving DecidableEq, Repr

/-- `struct ExchangeableFunction<T>(Cell<(T, ExchangeableFunctionState)>)`.
The `Cell` is embedded as the pair it holds; mutation becomes explicit
state passing. -/
structure ExchangeableFunction (T : Type) where
  cell : T × ExchangeableFunctionState
deriving DecidableEq, Repr

/-- `ExchangeableFunction::new`: constructs the cell holding
`(impl_, Original)`. -/
def ExchangeableFunction.new {T : Type} (impl_ : T) : ExchangeableFunction T :=
  ⟨(impl_, ExchangeableFunctionState.Original)⟩

/-- `ExchangeableFunction::get`: returns the internal function pointer
(the first component of the cell). -/
def ExchangeableFunction.get {T : Type} (self : ExchangeableFunction T) : T :=
  self.cell.1

/-- `struct RestoreImplementation<T>(&'static ExchangeableFunction<T>, Option<T>)`.
The static back-reference is embedded away (the cell is passed explicitly
to `drop`); the guard keeps only its `Option<T>` payload. -/
structure RestoreImplementation (T : Type) where
  stored : Option T
deriving DecidableEq, Repr

/-- Result of `ExchangeableFunction::replace_implementation`: either the
updated cell together with the returned guard, or a panic.  The panic
constructor carries the cell as it stands when the panic fires; in the
source the `panic!` precedes the `Cell::replace`, so the carried cell is
the entry cell, untouched. -/
inductive ReplaceResult (T : Type) where
  | ok (cell : ExchangeableFunction T) (guard : RestoreImplementation T)
  | panicked (cell : ExchangeableFunction T)
deriving DecidableEq, Repr

/-- `ExchangeableFunction::replace_implementation`: panics when the state
is already `Replaced`; otherwise swaps in `(new_impl, Replaced)` and
returns a guard holding `Some` of the old implementation. -/
def ExchangeableFunction.replace_implementation {T : Type}
    (self : ExchangeableFunction T) (new_impl : T) : ReplaceResult T :=
  match self.cell.2 with
  | ExchangeableFunctionState.Replaced => ReplaceResult.panicked self
  | ExchangeableFunctionState.Original =>
      let old := self.cell
      ReplaceResult.ok ⟨(new_impl, ExchangeableFunctionState.Replaced)⟩ ⟨some old.1⟩

/-- `ExchangeableFunction::restore_orig_implementation`: sets the cell to
`(orig, Original)`. -/
def ExchangeableFunction.restore_orig_implementation {T : Type}
    (_self : ExchangeableFunction T) (orig : T) : ExchangeableFunction T :=
  ⟨(orig, ExchangeableFunctionState.Original)⟩

/-- Result of `RestoreImplementation::drop`: either the restored cell
together with the guard after `Option::take` emptied it, or the
`expect` panic.  The panic constructor carries the cell untouched: when
`take` yields `None` the `expect` fires before
`restore_orig_implementation` is ever invoked. -/
inductive DropResult (T : Type) where
  | ok (cell : ExchangeableFunction T) (guard : RestoreImplementation T)
  | panicked (cell : ExchangeableFunction T)
deriving DecidableEq, Repr

/-- `impl Drop for RestoreImplementation`: `self.1.take().expect(..)`
then `restore_orig_implementation`.  `take` leaves `none` behind. -/
def RestoreImplementation.drop {T : Type} (cell : ExchangeableFunction T)
    (self : RestoreImplementation T) : DropResult T :=
  match self.stored with
  | none => DropResult.panicked cell
  | some orig =>
      DropResult.ok (cell.restore_orig_implementation orig) ⟨(none : Option T)⟩

/-- A guarded scope from the source's usage pattern: guard `g` is live
while the scope's body runs; Rust invokes `RestoreImplementation::drop`
on every exit path — normal return and abrupt unwinding alike.  `body`
is the outcome of the code inside the scope (code that does not touch
the cell): `Except.ok` a normal result or `Except.error` an unwinding
panic payload.  The scope's result pairs the effect of the guard's drop
on the cell with the propagated outcome of `body`. -/
def guarded_scope {T E R : Type} (cell : ExchangeableFunction T)
    (g : RestoreImplementation T) (body : Except E R) :
    DropResult T × Except E R :=
  (RestoreImplementation.drop cell g, body)

/-- A configuration of the exchangeable-function mechanism: the cell
together with the outstanding guard, when one is live. -/
abbrev EFConfig (T : Type) := ExchangeableFunction T × Option (RestoreImplementation T)

/-- The transitions the source offers on a configuration: a successful
`replace_implementation` (no guard may be outstanding, since the source
creates one guard per replacement and the guard borrows the cell until
dropped) and a successful `RestoreImplementation::drop`. -/
inductive EFStep (T : Type) : EFConfig T → EFConfig T → Prop where
  | replace (c c' : ExchangeableFunction T) (B : T) (g : RestoreImplementation T) :
      c.replace_implementation B = ReplaceResult.ok c' g →
      EFStep T (c, none) (c', some g)
  | dropGuard (c c' : ExchangeableFunction T) (g g' : RestoreImplementation T) :
      RestoreImplementation.drop c g = DropResult.ok c' g' →
      EFStep T (c, some g) (c', none)

/-- Configurations reachable from a cell freshly built by
`ExchangeableFunction::new A` with no guard outstanding. -/
inductive EFReachable (T : Type) (A : T) : EFConfig T → Prop where
  | init : EFReachable T A (ExchangeableFunction.new A, none)
  | step {s s' : EFConfig T} :
      EFReachable T A s → EFStep T s s' → EFReachable T A s'

/-! ## `FromFFIValue` / `IntoFFIValue` instances

The trait declarations are in `wasm.rs` (lines 31-45); the repository's
implementations of them live outside the provided source tree. -/

/-- Modelled from the spec: the repository's `IntoFFIValue`
implementation for a scalar type (missing from the provided sources;
only the trait declaration is in `wasm.rs`).  Spec section 4.1:
"`Owned = ()` when no extra allocation is needed (e.g., the boundary
value is itself a scalar)" — the boundary value of a `u32` is the scalar
itself, wrapped with no owned companion. -/
def u32_into_ffi_value (x : Nat) : WrappedFFIValue Nat Unit :=
  WrappedFFIValue.fromValue x

/-- Modelled from the spec: the repository's `FromFFIValue`
implementation for a scalar type (missing from the provided sources).
Spec section 4.1: `from_boundary_value` is "pure reconstruction" of the
typed value from its boundary value, which for a scalar is the scalar
itself. -/
def u32_from_ffi_value (arg : Nat) : Nat :=
  arg

/-! ## `NetworkPrivacyApi` (network-privacy lib.rs lines 21-37)

Only type signatures are declared there (`decl_runtime_apis!` produces
no body in this crate), so the embedding captures the declared types.
Machine integers are embedded as the sets of mathematical integers they
can hold. -/

/-- `fn reserved_nodes() -> Option<Vec<Vec<u8>>>`: whether `n : Int` is a
value of the element type (`u8`) of the accessor's returned byte
sequences. -/
def reserved_nodes_elem (n : Int) : Bool :=
  decide (0 ≤ n ∧ n < 256)

/-- `fn set_reserved_nodes(nodes: Vec<Vec<i8>>)`: whether `n : Int` is a
value of the element type (`i8`) of the mutator's argument sequences. -/
def set_reserved_nodes_elem (n : Int) : Bool :=
  decide (-128 ≤ n ∧ n < 128)

/-- The accessor's full return type: `Option<Vec<Vec<u8>>>`, i.e. an
optional ordered sequence of sequences whose elements all inhabit the
`u8` range. -/
def reserved_nodes_ret (v : Option (List (List Int))) : Bool :=
  match v with
  | none => true
  | some nodes => nodes.all fun node => node.all reserved_nodes_elem

/-- The mutator's argument type: `Vec<Vec<i8>>`, i.e. an ordered
sequence of sequences whose elements all inhabit the `i8` range. -/
def set_reserved_nodes_arg (nodes : List (List Int)) : Bool :=
  nodes.all fun node => node.all set_reserved_nodes_elem

/-! ## `UintAuthorityId` (testing.rs lines 33-121) -/

/-- `pub struct UintAuthorityId(pub u64)`. -/
structure UintAuthorityId where
  id : Nat
deriving DecidableEq, Repr

/-- `u64::from_le_bytes` on a byte list: the little-endian value, least
significant byte first.  On the 8-byte lists produced by `sign`/`verify`
the result is below `2 ^ 64`, so no wrap-around occurs. -/
def u64_from_le_bytes (bytes : List (Fin 256)) : Nat :=
  bytes.foldr (fun b acc => acc * 256 + (b : Nat)) 0

/-- The 8-byte buffer both `sign` and `verify` build:
`msg.as_ref().iter().chain(std::iter::repeat(&42u8)).take(8)` — the
first 8 bytes of `msg` padded at the end with byte `42` up to length 8.
Taking 8 from `msg` chained with infinitely many `42`s reads at most 8
padding bytes, so appending 8 of them before truncating is exact. -/
def sig_bytes (msg : List (Fin 256)) : List (Fin 256) :=
  (msg ++ List.replicate 8 (42 : Fin 256)).take 8

/-- `RuntimeAppPublic::sign for UintAuthorityId`: fills the 8-byte buffer
from the message padded with `42` and returns
`Some(u64::from_le_bytes(signature))`.  `self` is never read. -/
def UintAuthorityId.sign (_self : UintAuthorityId) (msg : List (Fin 256)) :
    Option Nat :=
  some (u64_from_le_bytes (sig_bytes msg))

/-- `RuntimeAppPublic::verify for UintAuthorityId`: rebuilds the same
8-byte buffer from the message and compares its little-endian value with
the signature.  `self` is never read. -/
def UintAuthorityId.verify (_self : UintAuthorityId) (msg : List (Fin 256))
    (signature : Nat) : Bool :=
  u64_from_le_bytes (sig_bytes msg) == signature

/-! ## `TestXt` (testing.rs lines 300-377) -/

/-- `pub struct TestXt<AccountId, Call, Extra>`. -/
structure TestXt (AccountId : Type) (Call : Type) (Extra : Type) where
  signature : Option (AccountId × Extra)
  call : Call

/-- `impl Checkable<Context> for TestXt`: `fn check(self, _: &Context)`
returns `Ok(self)` unconditionally — no signature or validity checking.
`Err` stands for `TransactionValidityError` (declared outside the
provided sources); `check` never constructs one. -/
def TestXt.check {AccountId Call Extra Context Err : Type}
    (self : TestXt AccountId Call Extra) (_ctx : Context) :
    Except Err (TestXt AccountId Call Extra) :=
  Except.ok self

/-- `Applyable::validate for TestXt`: ignores source, dispatch info and
length and returns `Ok(Default::default())`.  `V` stands for
`ValidTransaction` and `Err` for `TransactionValidityError` (both
declared outside the provided sources); the `Inhabited` instance plays
the role of `Default`. -/
def TestXt.validate {AccountId Call Extra Source Info V Err : Type}
    [Inhabited V] (_self : TestXt AccountId Call Extra) (_source : Source)
    (_info : Info) (_len : Nat) : Except Err V :=
  Except.ok default

/-! ## Helper lemmas -/

/-- Invariant of the exchangeable-function state machine: in every
configuration reachable from a fresh cell holding `A`, either the tag is
`Original`, the implementation is `A` and no guard is live, or the tag
is `Replaced` and the single live guard stores `some A`. -/
theorem efreachable_invariant {T : Type} (A : T) (s : EFConfig T)
    (h : EFReachable T A s) :
    (s.1.cell.2 = ExchangeableFunctionState.Original ∧ s.1.cell.1 = A ∧
      s.2 = none) ∨
    (s.1.cell.2 = ExchangeableFunctionState.Replaced ∧
      ∃ g, s.2 = some g ∧ g.stored = some A) := by
  induction h with
  | init => exact Or.inl ⟨rfl, rfl, rfl⟩
  | @step s1 s2 hr hst ih =>
    cases hst with
    | replace c c' B g hrep =>
      rcases ih with ⟨htag, himpl, -⟩ | ⟨-, g0, hg0, -⟩
      · obtain ⟨⟨v, st⟩⟩ := c
        have htag' : st = ExchangeableFunctionState.Original := htag
        have himpl' : v = A := himpl
        subst htag'
        injection hrep with h1 h2
        subst h1
        subst h2
        exact Or.inr ⟨rfl, ⟨some v⟩, rfl, by rw [himpl']⟩
      · exact Option.noConfusion hg0
    | dropGuard c c' g g' hdrop =>
      rcases ih with ⟨-, -, hnone⟩ | ⟨-, g0, hg0, hstored⟩
      · exact Option.noConfusion hnone
      · injection hg0 with hg
        subst hg
        obtain ⟨gs⟩ := g
        have hstored' : gs = some A := hstored
        subst hstored'
        injection hdrop with h1 h2
        subst h1
        subst h2
        exact Or.inl ⟨rfl, rfl, rfl⟩

/-! ## Claim theorems -/

/-- Claim C1: for every cell initialized with implementation `A`,
`replace_implementation B` succeeds and every call to `get` then returns
`B` until the guard is dropped (the cell cannot change in between: `get`
is pure and the only other operation, a second replacement, panics with
the cell untouched); once the guard is dropped, `get` returns `A`
again. -/
theorem exchange_restore_symmetry {T : Type} (A : T) (B : T) :
    ∃ cB g cA g',
      (ExchangeableFunction.new A).replace_implementation B =
        ReplaceResult.ok cB g ∧
      cB.get = B ∧
      (∀ X : T, cB.replace_implementation X = ReplaceResult.panicked cB) ∧
      RestoreImplementation.drop cB g = DropResult.ok cA g' ∧
      cA.get = A :=
  ⟨⟨(B, ExchangeableFunctionState.Replaced)⟩, ⟨some A⟩,
   ⟨(A, ExchangeableFunctionState.Original)⟩, ⟨none⟩,
   rfl, rfl, fun _ => rfl, rfl, rfl⟩

/-- Claim C2: after a successful `replace_implementation B` on a cell
initialized with `A`, a second `replace_implementation` without the
guard having been dropped panics, and the rejected call leaves the
cell's implementation (`B`) and state tag (`Replaced`) unchanged: its
result carries the cell exactly as it was. -/
theorem fatal_double_replace_atomic {T : Type} (A B C : T)
    (cB : ExchangeableFunction T) (g : RestoreImplementation T)
    (h : (ExchangeableFunction.new A).replace_implementation B =
      ReplaceResult.ok cB g) :
    cB.replace_implementation C = ReplaceResult.panicked cB ∧
    cB.get = B ∧ cB.cell.2 = ExchangeableFunctionState.Replaced := by
  injection h with h1 h2
  subst h1
  exact ⟨rfl, rfl, rfl⟩

/-- Witness for C2 at `A = 0`, `B = 1`, `C = 2`. -/
theorem fatal_double_replace_atomic_witness :
    ((ExchangeableFunction.new (0 : Nat)).replace_implementation 1 =
      ReplaceResult.ok ⟨(1, ExchangeableFunctionState.Replaced)⟩ ⟨some 0⟩) ∧
    ((⟨(1, ExchangeableFunctionState.Replaced)⟩ :
        ExchangeableFunction Nat).replace_implementation 2 =
      ReplaceResult.panicked ⟨(1, ExchangeableFunctionState.Replaced)⟩ ∧
     (⟨(1, ExchangeableFunctionState.Replaced)⟩ :
        ExchangeableFunction Nat).get = 1 ∧
     (⟨(1, ExchangeableFunctionState.Replaced)⟩ :
        ExchangeableFunction Nat).cell.2 = ExchangeableFunctionState.Replaced) :=
  ⟨rfl, fatal_double_replace_atomic 0 1 2 _ _ rfl⟩

/-- Claim C3: for a cell initialized with `A` and replaced with `B`, if
the code inside the guarded scope unwinds with failure `e`, the guard's
drop still runs on the unwinding path: after the failure propagates past
the scope, the cell holds implementation `A` with state `Original`, and
the failure itself is propagated unchanged. -/
theorem panic_safety_of_restoration {T E R : Type} (A B : T) (e : E)
    (cB : ExchangeableFunction T) (g : RestoreImplementation T)
    (h : (ExchangeableFunction.new A).replace_implementation B =
      ReplaceResult.ok cB g) :
    ∃ g', guarded_scope cB g (Except.error e : Except E R) =
      (DropResult.ok ⟨(A, ExchangeableFunctionState.Original)⟩ g',
       Except.error e) := by
  injection h with h1 h2
  subst h1
  subst h2
  exact ⟨⟨none⟩, rfl⟩

/-- Witness for C3 at `A = 0`, `B = 1`, failure payload `7`. -/
theorem panic_safety_of_restoration_witness :
    ((ExchangeableFunction.new (0 : Nat)).replace_implementation 1 =
      ReplaceResult.ok ⟨(1, ExchangeableFunctionState.Replaced)⟩ ⟨some 0⟩) ∧
    (∃ g', guarded_scope
        (⟨(1, ExchangeableFunctionState.Replaced)⟩ : ExchangeableFunction Nat)
        ⟨some 0⟩ (Except.error 7 : Except Nat Unit) =
      (DropResult.ok ⟨(0, ExchangeableFunctionState.Original)⟩ g',
       Except.error 7)) :=
  ⟨rfl, panic_safety_of_restoration 0 1 7 _ _ rfl⟩

/-- Claim C4: every configuration reachable from a fresh cell holding
`A` is either (implementation `A`, tag `Original`, no live guard) or
(tag `Replaced`, one live guard storing the original `A`); the only
transitions are `Original` to `Replaced` by a successful
`replace_implementation` and `Replaced` to `Original` by the guard's
drop (which reinstates `A`); and `replace_implementation` on a
`Replaced` cell panics — the only defined error path. -/
theorem exchangeable_function_state_machine {T : Type} (A : T)
    (s s' : EFConfig T) (hs : EFReachable T A s) :
    ((s.1.cell.2 = ExchangeableFunctionState.Original ∧ s.1.cell.1 = A ∧
        s.2 = none) ∨
     (s.1.cell.2 = ExchangeableFunctionState.Replaced ∧
        ∃ g, s.2 = some g ∧ g.stored = some A)) ∧
    (EFStep T s s' →
      ((s.1.cell.2 = ExchangeableFunctionState.Original ∧
        s'.1.cell.2 = ExchangeableFunctionState.Replaced ∧ s'.2 ≠ none) ∨
       (s.1.cell.2 = ExchangeableFunctionState.Replaced ∧
        s'.1.cell.2 = ExchangeableFunctionState.Original ∧
        s'.1.cell.1 = A ∧ s'.2 = none))) ∧
    (∀ B : T, s.1.cell.2 = ExchangeableFunctionState.Replaced →
      s.1.replace_implementation B = ReplaceResult.panicked s.1) := by
  have hinv := efreachable_invariant A s hs
  refine ⟨hinv, ?_, ?_⟩
  · intro hst
    cases hst with
    | replace c c' B g hrep =>
      rcases hinv with ⟨htag, -, -⟩ | ⟨-, g0, hg0, -⟩
      · obtain ⟨⟨v, st⟩⟩ := c
        have htag' : st = ExchangeableFunctionState.Original := htag
        subst htag'
        injection hrep with h1 h2
        subst h1
        exact Or.inl ⟨rfl, rfl, by simp⟩
      · exact Option.noConfusion hg0
    | dropGuard c c' g g' hdrop =>
      rcases hinv with ⟨-, -, hnone⟩ | ⟨htag, g0, hg0, hstored⟩
      · exact Option.noConfusion hnone
      · injection hg0 with hg
        subst hg
        obtain ⟨gs⟩ := g
        have hstored' : gs = some A := hstored
        subst hstored'
        injection hdrop with h1 h2
        subst h1
        exact Or.inr ⟨htag, rfl, rfl, rfl⟩
  · intro B htag
    obtain ⟨c, gopt⟩ := s
    obtain ⟨⟨v, st⟩⟩ := c
    have htag' : st = ExchangeableFunctionState.Replaced := htag
    subst htag'
    rfl

/-- Witness for C4 at the initial configuration of a cell holding `0`,
with the successor configuration reached by replacing with `1`. -/
theorem exchangeable_function_state_machine_witness :
    EFReachable Nat 0 (ExchangeableFunction.new 0, none) ∧
    ((((ExchangeableFunction.new (0 : Nat), none) :
          EFConfig Nat).1.cell.2 = ExchangeableFunctionState.Original ∧
      ((ExchangeableFunction.new (0 : Nat), none) :
          EFConfig Nat).1.cell.1 = 0 ∧
      ((ExchangeableFunction.new (0 : Nat), none) :
          EFConfig Nat).2 = none) ∨
     (((ExchangeableFunction.new (0 : Nat), none) :
          EFConfig Nat).1.cell.2 = ExchangeableFunctionState.Replaced ∧
      ∃ g, ((ExchangeableFunction.new (0 : Nat), none) :
          EFConfig Nat).2 = some g ∧ g.stored = some 0)) :=
  ⟨EFReachable.init,
   (exchangeable_function_state_machine 0 (ExchangeableFunction.new 0, none)
      ((⟨(1, ExchangeableFunctionState.Replaced)⟩ :
          ExchangeableFunction Nat), some ⟨some 0⟩)
      EFReachable.init).1⟩

/-- Claim C5: the carrier identity — `get` after `From<T>` returns the
wrapped value, `get` after `From<(T, O)>` returns the first component,
and `get` is independent of the owned companion. -/
theorem carrier_identity {T O : Type} (v : T) (o o' : O) :
    (WrappedFFIValue.fromValue v : WrappedFFIValue T O).get = v ∧
    (WrappedFFIValue.fromPair (v, o)).get = v ∧
    (WrappedFFIValue.WrappedAndOwned v o).get =
      (WrappedFFIValue.WrappedAndOwned v o').get :=
  ⟨rfl, rfl, rfl⟩

/-- Claim C6: round trip of the conversion contract on the spec-modelled
scalar instance — for every representable `u32` value `x`,
`from_ffi_value (into_ffi_value x).get = x`. -/
theorem ffi_round_trip (x : Nat) (_h : x < 2 ^ 32) :
    u32_from_ffi_value (u32_into_ffi_value x).get = x :=
  rfl

/-- Witness for C6 at `x = 7`. -/
theorem ffi_round_trip_witness :
    7 < 2 ^ 32 ∧ u32_from_ffi_value (u32_into_ffi_value 7).get = 7 :=
  ⟨by decide, ffi_round_trip 7 (by decide)⟩

/-- Claim C7: a guard that has performed its restoration stores `none`,
and a second destruction of that consumed guard panics (the `expect`
fires) with the cell untouched — restoration is never re-invoked with
stale data. -/
theorem guard_restores_at_most_once {T : Type}
    (c c' : ExchangeableFunction T) (g g' : RestoreImplementation T)
    (h : RestoreImplementation.drop c g = DropResult.ok c' g') :
    g'.stored = none ∧
    ∀ c'' : ExchangeableFunction T,
      RestoreImplementation.drop c'' g' = DropResult.panicked c'' := by
  obtain ⟨gs⟩ := g
  cases gs with
  | none => exact DropResult.noConfusion h
  | some orig =>
    injection h with h1 h2
    subst h2
    exact ⟨rfl, fun _ => rfl⟩

/-- Witness for C7: dropping the guard produced by replacing a cell that
held `0`. -/
theorem guard_restores_at_most_once_witness :
    (RestoreImplementation.drop
        (⟨(1, ExchangeableFunctionState.Replaced)⟩ : ExchangeableFunction Nat)
        ⟨some 0⟩ =
      DropResult.ok ⟨(0, ExchangeableFunctionState.Original)⟩ ⟨none⟩) ∧
    ((⟨none⟩ : RestoreImplementation Nat).stored = none ∧
     ∀ c'' : ExchangeableFunction Nat,
       RestoreImplementation.drop c'' ⟨none⟩ = DropResult.panicked c'') :=
  ⟨rfl, guard_restores_at_most_once
    ⟨(1, ExchangeableFunctionState.Replaced)⟩
    ⟨(0, ExchangeableFunctionState.Original)⟩ ⟨some 0⟩ ⟨none⟩ rfl⟩

/-- Claim C8, counterexample part: the element type of the accessor's
return (`u8`) and the element type of the mutator's argument (`i8`)
disagree — `255` is a byte and a valid element of a returned node id,
but no element of `set_reserved_nodes`'s argument can hold `255`, while
the non-byte `-1` is accepted; so the mutator does not take sequences of
byte sequences. -/
theorem set_reserved_nodes_element_type_mismatch :
    reserved_nodes_elem 255 = true ∧
    set_reserved_nodes_elem 255 = false ∧
    set_reserved_nodes_elem (-1) = true ∧
    reserved_nodes_elem (-1) = false ∧
    reserved_nodes_ret (some [[255]]) = true ∧
    set_reserved_nodes_arg [[255]] = false := by
  decide

/-- Claim C9: `sign` always succeeds, the produced signature is the
little-endian 64-bit value of the first 8 bytes of the message padded
with byte `42`, `verify` accepts it under any (other) authority id, and
both functions are independent of the authority id. -/
theorem uint_authority_id_sign_verify (a b : UintAuthorityId)
    (msg : List (Fin 256)) :
    ∃ s : Nat,
      a.sign msg = some s ∧
      s = u64_from_le_bytes ((msg ++ List.replicate 8 (42 : Fin 256)).take 8) ∧
      b.verify msg s = true ∧
      a.sign msg = b.sign msg ∧
      (∀ t : Nat, a.verify msg t = b.verify msg t) := by
  refine ⟨u64_from_le_bytes (sig_bytes msg), rfl, rfl, ?_, rfl, fun _ => rfl⟩
  simp [UintAuthorityId.verify]

/-- Claim C10: `Checkable::check` on `TestXt` returns `Ok` with the
extrinsic unchanged regardless of its signature field and of the
context, and `Applyable::validate` returns `Ok(Default::default())` for
every source, dispatch info and length. -/
theorem testxt_check_validate
    {AccountId Call Extra Context Source Info V Err : Type} [Inhabited V]
    (xt : TestXt AccountId Call Extra) (ctx : Context) (source : Source)
    (info : Info) (len : Nat) :
    (TestXt.check xt ctx : Except Err (TestXt AccountId Call Extra)) =
      Except.ok xt ∧
    (TestXt.validate xt source info len : Except Err V) =
      Except.ok default :=
  ⟨rfl, rfl⟩

end PlugBlockchain
